import Mathlib

/-!
Shallow embedding of the data-cron transfer orchestration core
(src/transfer.py, src/scripts/models.py) and proofs about the
frozen specification claims.

Modelling conventions:
* file paths at the destination and source are relative paths
  (directory components plus a base name);
* the sqlite tables are lists of rows; INSERT OR REPLACE removes the
  conflicting primary-key row and appends, UPDATE maps over rows;
* the external rsync tool is an oracle: for each attempt number the
  environment supplies the observed exit code and captured output, and
  the destination listing seen by the verifier after that attempt;
* main_run returns the process exit code, the final database state and
  a trace of the observable events the python function performs, in
  program order.
-/

/-- A relative path: directory components and the base file name
(Python pathlib `.name`). -/
structure RelPath where
  dirs : List String
  base : String
deriving DecidableEq, Repr

/-- One row of the file_record table (scripts/models.py, init_database). -/
structure FileRec where
  run_ID : String
  file_name : String
  full_path_target_dir : String
deriving DecidableEq, Repr

/-- One row of the run table (scripts/models.py, init_database). -/
structure RunRow where
  run_ID : String
  transfer_day : String
  transfer_time : String
  source_dir : String
  target_dir : String
  status : String
  transfer_log_file_path : String
  md5sum_map_path : String
deriving DecidableEq, Repr

/-- scripts/models.py check_run_status: SELECT status FROM run WHERE run_ID = ?,
returning the first matching row's status, or none. -/
def check_run_status (db : List RunRow) (run_id : String) : Option String :=
  match db with
  | [] => none
  | r :: rs => if r.run_ID == run_id then some r.status else check_run_status rs run_id

/-- scripts/models.py insert_run_record: INSERT OR REPLACE INTO run.
SQLite deletes the row with the conflicting primary key and inserts the
new one. -/
def insert_run_record (db : List RunRow)
    (run_id day time source target status log md5 : String) : List RunRow :=
  db.filter (fun r => !(r.run_ID == run_id)) ++
    [⟨run_id, day, time, source, target, status, log, md5⟩]

/-- scripts/models.py update_run_status: UPDATE run SET status = ? WHERE
run_ID = ?.  Matches zero or more rows; no error is raised when no row
matches. -/
def update_run_status (db : List RunRow) (run_id status : String) : List RunRow :=
  db.map (fun r => if r.run_ID == run_id then { r with status := status } else r)

/-- scripts/models.py update_run_md5sum_path: UPDATE run SET
md5sum_map_path = ? WHERE run_ID = ?. -/
def update_run_md5sum_path (db : List RunRow) (run_id p : String) : List RunRow :=
  db.map (fun r => if r.run_ID == run_id then { r with md5sum_map_path := p } else r)

/-- transfer.py main, lines 376-380: UPDATE run SET
transfer_log_file_path = ? WHERE run_ID = ?. -/
def update_run_log_path (db : List RunRow) (run_id p : String) : List RunRow :=
  db.map (fun r => if r.run_ID == run_id then { r with transfer_log_file_path := p } else r)

/-- SELECT COUNT(*) FROM file_record WHERE run_ID = ? AND file_name = ?
tested for being nonzero (the duplicate guard in populate_file_records). -/
def hasRecord (frs : List FileRec) (run_id name : String) : Bool :=
  frs.any (fun r => r.run_ID == run_id && r.file_name == name)

/-- Full destination path string of a relative path under a target dir. -/
def fullPathStr (target_dir : String) (p : RelPath) : String :=
  target_dir ++ "/" ++ String.intercalate "/" (p.dirs ++ [p.base])

/-- The insertion loop of transfer.py populate_file_records: for each file
found at the destination, insert a FileRecord keyed by base name when the
base name occurs among the source base names and no (run_ID, file_name)
record exists yet.  The cursor sees its own earlier inserts, hence the
accumulator threading. -/
def populateAux (run_id target : String) (srcNames : List String) :
    List RelPath → List FileRec → List FileRec
  | [], acc => acc
  | p :: ps, acc =>
    if srcNames.contains p.base && !(hasRecord acc run_id p.base) then
      populateAux run_id target srcNames ps
        (acc ++ [⟨run_id, p.base, fullPathStr target p⟩])
    else
      populateAux run_id target srcNames ps acc

/-- transfer.py populate_file_records (lines 114-165): the source
enumeration is reduced to base names; destFiles is the listing of the
destination (local rglob or remote find), also compared by base name. -/
def populate_file_records (frs : List FileRec) (run_id target : String)
    (destFiles sourceFiles : List RelPath) : List FileRec :=
  populateAux run_id target (sourceFiles.map (fun p => p.base)) destFiles frs

/-- transfer.py check_files_transferred (lines 94-112): source files are
enumerated by base name, compared against the file_name column of the
run's FileRecords; the set difference is modelled as a filter (empty iff
the python set difference is empty). -/
def check_files_transferred (frs : List FileRec) (run_id : String)
    (sourceFiles : List RelPath) : Bool × List String :=
  let source_names := sourceFiles.map (fun p => p.base)
  let db_files := (frs.filter (fun r => r.run_ID == run_id)).map (fun r => r.file_name)
  let missing := source_names.filter (fun n => !(db_files.contains n))
  (missing.isEmpty, missing)

/-- Observed outcome of one rsync subprocess execution. -/
structure RsyncOutcome where
  exitCode : Int
  output : String
deriving DecidableEq, Repr

/-- transfer.py run_rsync (lines 61-77): the attempt classification is
the boolean `result.returncode == 0`; the captured output goes to the log
file and is never inspected. -/
def run_rsync_ok (o : RsyncOutcome) : Bool :=
  o.exitCode == 0

/-- Modelled from the spec (section 4.3), not from the source: the
spec's failure-marker tokens.  transfer.py has no such list; this
definition exists only to compare the spec's classification rule with
the code's. -/
def specFailureMarkers : List String := ["failed:", "error", "rsync error:"]

/-- ASCII lowercasing on character codes. -/
def lowerNat (n : Nat) : Nat :=
  if 65 ≤ n ∧ n ≤ 90 then n + 32 else n

/-- Lowercased character codes of a string. -/
def strLowerCodes (s : String) : List Nat :=
  s.data.map (fun c => lowerNat c.toNat)

/-- Does the first list stand at the head of the second? -/
def leadMatch : List Nat → List Nat → Bool
  | [], _ => true
  | _ :: _, [] => false
  | a :: as, b :: bs => a == b && leadMatch as bs

/-- Does the pattern occur contiguously inside the list? -/
def occursIn (pat : List Nat) : List Nat → Bool
  | [] => leadMatch pat []
  | b :: bs => leadMatch pat (b :: bs) || occursIn pat bs

/-- Modelled from the spec: case-insensitive substring containment
(Python pat.lower() in s.lower() for the ASCII marker tokens). -/
def containsCI (s pat : String) : Bool :=
  occursIn (strLowerCodes pat) (strLowerCodes s)

/-- Modelled from the spec: the combined captured output contains at
least one failure marker under case-insensitive substring matching. -/
def specHasFailureMarker (s : String) : Bool :=
  specFailureMarkers.any (fun m => containsCI s m)

/-- Split a character list on the slash character. -/
def splitOnSlash : List Char → List (List Char)
  | [] => [[]]
  | x :: xs =>
    match splitOnSlash xs with
    | [] => [[]]
    | h :: t => if x == '/' then [] :: h :: t else (x :: h) :: t

/-- Last element of a string list, with a default. -/
def lastD : List String → String → String
  | [], d => d
  | [x], _ => x
  | _ :: x :: xs, d => lastD (x :: xs) d

/-- Python `Path(s).name`: the last nonempty slash-separated component. -/
def pathName (s : String) : String :=
  lastD (((splitOnSlash s.data).map String.mk).filter (fun c => !(c == ""))) ""

/-- transfer.py main, lines 280-287: remote mode iff the destination
contains both an at sign and a colon. -/
def is_remote_dest (dest : String) : Bool :=
  dest.data.contains '@' && dest.data.contains ':'

/-- Observable events performed by one invocation of main, in program
order.  dbInit and tmpMkdir are the CREATE TABLE IF NOT EXISTS and the
mkdir(exist_ok=True) of the local event_logs dir (mutations only when
the object is absent); logCreate is the FileHandler opening the fresh
timestamped log file; rsyncExec and scpExec are subprocess executions;
destMkdir and destWrite touch the destination. -/
inductive Event where
  | dbInit
  | tmpMkdir
  | logCreate
  | logWrite
  | ledgerRead (run_id : String)
  | destMkdir (path : String)
  | ledgerWrite (run_id status : String)
  | ledgerPathWrite
  | rsyncExec (src target : String)
  | destWrite (path : String)
  | tmpWrite
  | scpExec (src dst : String)
deriving DecidableEq, Repr

/-- Is the event an execution of the sync tool? -/
def eventIsSync : Event → Bool
  | .rsyncExec _ _ => true
  | _ => false

/-- Does the event mutate the destination directory?  Creation of the
destination directory counts, as do file writes into it and executions
of the copy tools targeting it. -/
def eventMutatesDest : Event → Bool
  | .destMkdir _ => true
  | .destWrite _ => true
  | .rsyncExec _ _ => true
  | .scpExec _ _ => true
  | _ => false

/-- Does the event unconditionally mutate the filesystem?  dbInit,
tmpMkdir and ledgerRead are excluded (the first two mutate only when the
object does not yet exist, the read mutates nothing). -/
def eventMutatesFS : Event → Bool
  | .dbInit => false
  | .tmpMkdir => false
  | .ledgerRead _ => false
  | _ => true

/-- Number of sync-tool executions in a trace. -/
def countRsync (t : List Event) : Nat :=
  (t.filter eventIsSync).length

/-- The invocation environment: CLI arguments, the clock strings, the
source enumeration, and the oracle describing the external world (per
attempt: the rsync outcome and the destination listing the verifier
sees afterwards; whether the two scp copies succeed). -/
structure Config where
  source_dir : String
  destination_dir : String
  max_retry : Nat
  script_dir : String
  timestamp : String
  transfer_day : String
  transfer_time : String
  sourceFiles : List RelPath
  attemptOutcome : Nat → RsyncOutcome
  destListing : Nat → List RelPath
  scpLogOk : Bool
  scpMd5Ok : Bool

/-- The persistent database state: run table and file_record table. -/
structure DBState where
  runs : List RunRow
  files : List FileRec
deriving DecidableEq, Repr

/-- Result of an attempt loop: the success flag, the file_record table,
and the events performed. -/
structure LoopRes where
  success : Bool
  files : List FileRec
  trace : List Event
deriving Repr

/-- Result of one invocation of main: process exit code, final database
state, event trace. -/
structure RunResult where
  exitCode : Nat
  db : DBState
  trace : List Event
deriving Repr

/-- transfer.py main, lines 303-321: the retry loop.  rem is the number
of remaining attempts, i the 1-based attempt number.  Per attempt: log
banner, one rsync execution, log line; on exit code 0 the verifier runs
(populate then check); completeness breaks the loop with success,
otherwise the loop continues to the next attempt. -/
def attemptLoop (cfg : Config) (rid tgt : String) :
    Nat → Nat → List FileRec → LoopRes
  | 0, _, frs => ⟨false, frs, []⟩
  | rem + 1, i, frs =>
    let evs : List Event := [.logWrite, .rsyncExec cfg.source_dir tgt, .logWrite]
    if run_rsync_ok (cfg.attemptOutcome i) then
      let frs2 := populate_file_records frs rid tgt (cfg.destListing i) cfg.sourceFiles
      if (check_files_transferred frs2 rid cfg.sourceFiles).1 then
        ⟨true, frs2, evs ++ [.logWrite]⟩
      else
        let r := attemptLoop cfg rid tgt rem (i + 1) frs2
        ⟨r.success, r.files, evs ++ [.logWrite] ++ r.trace⟩
    else
      let r := attemptLoop cfg rid tgt rem (i + 1) frs
      ⟨r.success, r.files, evs ++ [.logWrite] ++ r.trace⟩

/-- transfer.py main: run_ID is the leaf name of the source directory
(line 253). -/
def runIdOf (cfg : Config) : String := pathName cfg.source_dir

/-- transfer.py main, line 261: the timestamped log file name. -/
def logFileOf (cfg : Config) : String := runIdOf cfg ++ "_" ++ cfg.timestamp ++ ".log"

/-- transfer.py main, line 262: log path inside the local event_logs dir. -/
def localLogPathOf (cfg : Config) : String :=
  cfg.script_dir ++ "/event_logs/" ++ logFileOf cfg

/-- transfer.py main, lines 280-287: destination plus run_ID. -/
def targetOf (cfg : Config) : String :=
  cfg.destination_dir ++ "/" ++ runIdOf cfg

/-- transfer.py main, line 298: placeholder md5 map path for the initial
insert. -/
def tempMd5Of (cfg : Config) : String :=
  cfg.script_dir ++ "/event_logs/" ++ runIdOf cfg ++ "_temp.tsv"

/-- transfer.py create_md5_mapping_file, line 186: the timestamped md5
mapping file name. -/
def md5FileOf (cfg : Config) : String :=
  runIdOf cfg ++ "_md5_mapping_" ++ cfg.timestamp ++ ".tsv"

/-- transfer.py create_md5_mapping_file, lines 188-191: the md5 file is
written into the local tmp dir for remote destinations, directly into
the target dir for local ones. -/
def localMd5PathOf (cfg : Config) : String :=
  if is_remote_dest cfg.destination_dir then
    cfg.script_dir ++ "/event_logs/" ++ md5FileOf cfg
  else targetOf cfg ++ "/" ++ md5FileOf cfg

/-- transfer.py main, lines 345-366: where the log ends up (scp for
remote, falling back to the local path on copy failure; move for local). -/
def finalLogPathOf (cfg : Config) : String :=
  if is_remote_dest cfg.destination_dir then
    (if cfg.scpLogOk then targetOf cfg ++ "/" ++ logFileOf cfg else localLogPathOf cfg)
  else targetOf cfg ++ "/" ++ logFileOf cfg

/-- transfer.py main, lines 345-366: where the md5 mapping ends up. -/
def finalMd5PathOf (cfg : Config) : String :=
  if is_remote_dest cfg.destination_dir then
    (if cfg.scpMd5Ok then targetOf cfg ++ "/" ++ md5FileOf cfg else localMd5PathOf cfg)
  else targetOf cfg ++ "/" ++ md5FileOf cfg

/-- The retry loop of main (lines 303-321) started with the full budget
and the initial file_record table. -/
def loopOf (cfg : Config) (db0 : DBState) : LoopRes :=
  attemptLoop cfg (runIdOf cfg) (targetOf cfg) cfg.max_retry 1 db0.files

/-- transfer.py main, line 369: final status string. -/
def finalStatusOf (cfg : Config) (db0 : DBState) : String :=
  if (loopOf cfg db0).success then "SUCCESS" else "FAILED"

/-- transfer.py main, lines 296-301: the PROCESSING transition, an
insert for a fresh run_ID and an update otherwise. -/
def runsAfterProcessing (cfg : Config) (db0 : DBState) (st : Option String) : List RunRow :=
  if st = none then
    insert_run_record db0.runs (runIdOf cfg) cfg.transfer_day cfg.transfer_time
      cfg.source_dir (targetOf cfg) "PROCESSING" (localLogPathOf cfg) (tempMd5Of cfg)
  else
    update_run_status db0.runs (runIdOf cfg) "PROCESSING"

/-- transfer.py main, lines 368-380: the final status write, the md5
path write, and the log path write when relocation changed the path. -/
def runsFinal (cfg : Config) (db0 : DBState) (st : Option String) : List RunRow :=
  let r2 := update_run_status (runsAfterProcessing cfg db0 st) (runIdOf cfg)
    (finalStatusOf cfg db0)
  let r3 := update_run_md5sum_path r2 (runIdOf cfg) (finalMd5PathOf cfg)
  if finalLogPathOf cfg = localLogPathOf cfg then r3
  else update_run_log_path r3 (runIdOf cfg) (finalLogPathOf cfg)

/-- Events shared by every invocation before the status decision:
init_database, event_logs mkdir, log file creation, two opening log
lines, ledger status read. -/
def preTrace (run_id : String) : List Event :=
  [.dbInit, .tmpMkdir, .logCreate, .logWrite, .logWrite, .ledgerRead run_id]

/-- transfer.py main, lines 291-293: the destination directory is created
for local destinations only. -/
def mkdirEvsOf (cfg : Config) : List Event :=
  if is_remote_dest cfg.destination_dir then [] else [.destMkdir (targetOf cfg)]

/-- transfer.py create_md5_mapping_file: writes to the tmp dir for a
remote destination, into the target dir for a local one. -/
def md5EvsOf (cfg : Config) : List Event :=
  if is_remote_dest cfg.destination_dir then [.tmpWrite]
  else [.destWrite (localMd5PathOf cfg)]

/-- transfer.py main, lines 341-366: artifact relocation events. -/
def relocEvsOf (cfg : Config) : List Event :=
  if is_remote_dest cfg.destination_dir then
    [.scpExec (localLogPathOf cfg) (targetOf cfg ++ "/" ++ logFileOf cfg), .logWrite,
     .scpExec (localMd5PathOf cfg) (targetOf cfg ++ "/" ++ md5FileOf cfg), .logWrite]
  else
    [.destWrite (targetOf cfg ++ "/" ++ logFileOf cfg),
     .destWrite (targetOf cfg ++ "/" ++ md5FileOf cfg)]

/-- transfer.py main, lines 374-380: the log path ledger write happens
only when the final path differs from the local one. -/
def pathEvsOf (cfg : Config) : List Event :=
  if finalLogPathOf cfg = localLogPathOf cfg then [] else [.ledgerPathWrite]

/-- Events of main after the PROCESSING write: the retry loop, the
failure log line when the loop failed, the md5 emission, the final log
append, relocation, the two ledger writes and final log line, and the
conditional log path write. -/
def postTrace (cfg : Config) (db0 : DBState) : List Event :=
  (loopOf cfg db0).trace ++
    (if (loopOf cfg db0).success then [] else [.logWrite]) ++
    [.logWrite] ++ md5EvsOf cfg ++ [.logWrite, .logWrite] ++ relocEvsOf cfg ++
    [.ledgerWrite (runIdOf cfg) (finalStatusOf cfg db0), .ledgerPathWrite, .logWrite] ++
    pathEvsOf cfg

/-- The branch of main (lines 279-380) taken when the prior status is
neither SUCCESS nor PROCESSING: destination mkdir for local targets,
PROCESSING write, retry loop, artifact emission and relocation, final
ledger writes.  st is the status read from the ledger. -/
def main_proceed (cfg : Config) (db0 : DBState) (st : Option String) : RunResult :=
  ⟨0, ⟨runsFinal cfg db0 st, (loopOf cfg db0).files⟩,
    preTrace (runIdOf cfg) ++ [.logWrite] ++ mkdirEvsOf cfg ++
      [.ledgerWrite (runIdOf cfg) "PROCESSING"] ++ postTrace cfg db0⟩

/-- transfer.py main (lines 218-380), after argument validation.
Events and database mutations in python program order: init_database;
event_logs mkdir; log file creation and initial log lines; ledger status
read; early return on SUCCESS or PROCESSING; otherwise the proceed
branch.  The python function returns None in every case, so the process
exit code is 0 on every path. -/
def main_run (cfg : Config) (db0 : DBState) : RunResult :=
  if check_run_status db0.runs (runIdOf cfg) = some "SUCCESS" then
    ⟨0, db0, preTrace (runIdOf cfg) ++ [.logWrite]⟩
  else if check_run_status db0.runs (runIdOf cfg) = some "PROCESSING" then
    ⟨0, db0, preTrace (runIdOf cfg) ++ [.logWrite]⟩
  else main_proceed cfg db0 (check_run_status db0.runs (runIdOf cfg))

/-- The empty database. -/
def dbEmpty : DBState := ⟨[], []⟩

/-- Concrete local-destination scenario: one source file, every rsync
attempt fails with exit code 1, one retry allowed. -/
def cfgAllFail : Config :=
  { source_dir := "/data/run1"
    destination_dir := "/dst"
    max_retry := 1
    script_dir := "/app"
    timestamp := "20250101_000000"
    transfer_day := "01/01/2025"
    transfer_time := "00:00:00"
    sourceFiles := [⟨[], "a.txt"⟩]
    attemptOutcome := fun _ => ⟨1, "rsync failed"⟩
    destListing := fun _ => []
    scpLogOk := true
    scpMd5Ok := true }

/-- Same scenario with two retry attempts allowed. -/
def cfgAllFail2 : Config := { cfgAllFail with max_retry := 2 }

/-- Same local scenario, but the source tree holds two distinct files
with the same base name in different subdirectories, rsync reports exit
code 0, and only one of the two reaches the destination. -/
def cfgShadow : Config :=
  { cfgAllFail with
    sourceFiles := [⟨["a"], "x"⟩, ⟨["b"], "x"⟩]
    attemptOutcome := fun _ => ⟨0, "sent a/x"⟩
    destListing := fun _ => [⟨["a"], "x"⟩] }

/-- A ledger row for run1 already marked SUCCESS. -/
def rowSuccess : RunRow :=
  ⟨"run1", "01/01/2025", "00:00:00", "/data/run1", "/dst/run1", "SUCCESS", "lg", "md"⟩

/-- A database whose only run is run1 with status SUCCESS. -/
def dbSuccess : DBState := ⟨[rowSuccess], []⟩

/-- A ledger row for run1 currently marked PROCESSING. -/
def rowProcessing : RunRow :=
  ⟨"run1", "01/01/2025", "00:00:00", "/data/run1", "/dst/run1", "PROCESSING", "lg", "md"⟩

/-- A database whose only run is run1 with status PROCESSING. -/
def dbProcessing : DBState := ⟨[rowProcessing], []⟩

/-- Scans a trace up to the first ledger write of PROCESSING for the
given run and reports whether any sync-tool execution occurs earlier. -/
def syncBeforeWrite (rid : String) : List Event → Bool
  | [] => false
  | e :: t =>
    if e = Event.ledgerWrite rid "PROCESSING" then false
    else eventIsSync e || syncBeforeWrite rid t

/-- No two FileRecords share a (run_ID, file_name) pair. -/
def NoDupP (frs : List FileRec) : Prop :=
  List.Pairwise (fun a b => ¬(a.run_ID = b.run_ID ∧ a.file_name = b.file_name)) frs

/-- One verifier recording pass: the run it serves, the target dir, the
destination listing it sees and the source enumeration it compares
against. -/
structure VerifierPass where
  run_id : String
  target_dir : String
  destFiles : List RelPath
  sourceFiles : List RelPath

/-- A sequence of verifier recording passes applied to the file_record
table. -/
def applyPasses (frs : List FileRec) : List VerifierPass → List FileRec
  | [] => frs
  | p :: ps =>
    applyPasses (populate_file_records frs p.run_id p.target_dir p.destFiles p.sourceFiles) ps

/-- A concrete verifier pass used to instantiate the invariant. -/
def passW : VerifierPass :=
  ⟨"run1", "/dst/run1", [⟨[], "a.txt"⟩, ⟨[], "b.txt"⟩], [⟨[], "a.txt"⟩]⟩

/-- Local scenario in which rsync reports exit code 0 but the source
file never reaches the destination. -/
def cfgMissing : Config :=
  { cfgAllFail with
    attemptOutcome := fun _ => ⟨0, "sent nothing"⟩
    destListing := fun _ => [] }

theorem check_update_self (db : List RunRow) (id st : String) :
    check_run_status (update_run_status db id st) id =
      (check_run_status db id).map (fun _ => st) := by
  induction db with
  | nil => rfl
  | cons r rs ih =>
    by_cases h : r.run_ID = id
    · simp [check_run_status, update_run_status, h]
    · simpa [check_run_status, update_run_status, h] using ih

theorem check_map_preserve (f : RunRow → RunRow)
    (hid : ∀ r, (f r).run_ID = r.run_ID) (hst : ∀ r, (f r).status = r.status)
    (db : List RunRow) (id2 : String) :
    check_run_status (db.map f) id2 = check_run_status db id2 := by
  induction db with
  | nil => rfl
  | cons r rs ih =>
    simp only [List.map_cons, check_run_status, hid r, hst r]
    by_cases h2 : r.run_ID = id2
    · simp [h2]
    · have h2b : ¬((r.run_ID == id2) = true) := by simpa using h2
      rw [if_neg h2b, if_neg h2b]
      exact ih

theorem check_md5_path (db : List RunRow) (id p id2 : String) :
    check_run_status (update_run_md5sum_path db id p) id2 = check_run_status db id2 :=
  check_map_preserve _
    (fun r => by by_cases h : r.run_ID = id <;> simp [h])
    (fun r => by by_cases h : r.run_ID = id <;> simp [h])
    db id2

theorem check_log_path (db : List RunRow) (id p id2 : String) :
    check_run_status (update_run_log_path db id p) id2 = check_run_status db id2 :=
  check_map_preserve _
    (fun r => by by_cases h : r.run_ID = id <;> simp [h])
    (fun r => by by_cases h : r.run_ID = id <;> simp [h])
    db id2

theorem check_insert_self (db : List RunRow) (id d t s tg st l m : String) :
    check_run_status (insert_run_record db id d t s tg st l m) id = some st := by
  induction db with
  | nil => simp [check_run_status, insert_run_record]
  | cons r rs ih =>
    by_cases h : r.run_ID = id
    · simpa [insert_run_record, List.filter_cons, h] using ih
    · simpa [check_run_status, insert_run_record, List.filter_cons, h] using ih

theorem countRsync_append (a b : List Event) :
    countRsync (a ++ b) = countRsync a + countRsync b := by
  simp [countRsync, List.filter_append]

theorem attemptLoop_allfail (cfg : Config) (rid tgt : String)
    (h : ∀ j, run_rsync_ok (cfg.attemptOutcome j) = false) :
    ∀ rem i frs,
      (attemptLoop cfg rid tgt rem i frs).success = false ∧
      (attemptLoop cfg rid tgt rem i frs).files = frs ∧
      countRsync (attemptLoop cfg rid tgt rem i frs).trace = rem := by
  intro rem
  induction rem with
  | zero => intro i frs; exact ⟨rfl, rfl, rfl⟩
  | succ n ih =>
    intro i frs
    obtain ⟨ih1, ih2, ih3⟩ := ih (i + 1) frs
    refine ⟨?_, ?_, ?_⟩
    · simp [attemptLoop, h i, ih1]
    · simp [attemptLoop, h i, ih2]
    · simp only [attemptLoop, h i]
      simp [countRsync_append, countRsync, eventIsSync] at ih3 ⊢
      omega

theorem main_run_proceed (cfg : Config) (db0 : DBState)
    (h1 : check_run_status db0.runs (runIdOf cfg) ≠ some "SUCCESS")
    (h2 : check_run_status db0.runs (runIdOf cfg) ≠ some "PROCESSING") :
    main_run cfg db0 = main_proceed cfg db0 (check_run_status db0.runs (runIdOf cfg)) := by
  unfold main_run
  rw [if_neg h1, if_neg h2]

theorem countRsync_preTrace (rid : String) : countRsync (preTrace rid) = 0 := rfl

theorem countRsync_mkdirEvs (cfg : Config) : countRsync (mkdirEvsOf cfg) = 0 := by
  unfold mkdirEvsOf
  split <;> rfl

theorem countRsync_md5Evs (cfg : Config) : countRsync (md5EvsOf cfg) = 0 := by
  unfold md5EvsOf
  split <;> rfl

theorem countRsync_relocEvs (cfg : Config) : countRsync (relocEvsOf cfg) = 0 := by
  unfold relocEvsOf
  split <;> rfl

theorem countRsync_pathEvs (cfg : Config) : countRsync (pathEvsOf cfg) = 0 := by
  unfold pathEvsOf
  split <;> rfl

theorem countRsync_main_proceed (cfg : Config) (db0 : DBState) (st : Option String) :
    countRsync (main_proceed cfg db0 st).trace = countRsync (loopOf cfg db0).trace := by
  show countRsync (preTrace (runIdOf cfg) ++ [.logWrite] ++ mkdirEvsOf cfg ++
    [.ledgerWrite (runIdOf cfg) "PROCESSING"] ++ postTrace cfg db0) = _
  unfold postTrace
  simp only [countRsync_append, countRsync_preTrace, countRsync_mkdirEvs,
    countRsync_md5Evs, countRsync_relocEvs, countRsync_pathEvs]
  have hfail : countRsync (if (loopOf cfg db0).success then ([] : List Event)
      else [.logWrite]) = 0 := by split <;> rfl
  simp [hfail, countRsync, eventIsSync]

theorem check_runsAfterProcessing (cfg : Config) (db0 : DBState) :
    ∀ st, st = check_run_status db0.runs (runIdOf cfg) →
      check_run_status (runsAfterProcessing cfg db0 st) (runIdOf cfg) = some "PROCESSING" := by
  intro st hsteq
  unfold runsAfterProcessing
  rcases hs : st with _ | s
  · rw [if_pos rfl]
    exact check_insert_self db0.runs (runIdOf cfg) _ _ _ _ _ _ _
  · rw [if_neg (by simp)]
    rw [check_update_self]
    rw [← hsteq, hs]
    rfl

theorem check_runsFinal (cfg : Config) (db0 : DBState) (st : Option String)
    (hsteq : st = check_run_status db0.runs (runIdOf cfg)) :
    check_run_status (runsFinal cfg db0 st) (runIdOf cfg) = some (finalStatusOf cfg db0) := by
  unfold runsFinal
  have hbase : check_run_status (runsAfterProcessing cfg db0 st) (runIdOf cfg) =
      some "PROCESSING" :=
    check_runsAfterProcessing cfg db0 st hsteq
  have h2 : check_run_status (update_run_status (runsAfterProcessing cfg db0 st)
      (runIdOf cfg) (finalStatusOf cfg db0)) (runIdOf cfg) = some (finalStatusOf cfg db0) := by
    rw [check_update_self, hbase]
    rfl
  split
  · rw [check_md5_path]
    exact h2
  · rw [check_log_path, check_md5_path]
    exact h2

theorem syncBeforeWrite_append (rid : String) (xs ys : List Event)
    (hx : ∀ e ∈ xs, eventIsSync e = false ∧ e ≠ Event.ledgerWrite rid "PROCESSING") :
    syncBeforeWrite rid (xs ++ ys) = syncBeforeWrite rid ys := by
  induction xs with
  | nil => rfl
  | cons e t ih =>
    obtain ⟨h1, h2⟩ := hx e (List.mem_cons_self e t)
    simp only [List.cons_append, syncBeforeWrite]
    rw [if_neg h2, h1]
    simp only [Bool.false_or]
    exact ih (fun x hxm => hx x (List.mem_cons_of_mem _ hxm))

/-- C1, counterexample: in a local run on a fresh ledger whose single
attempt fails, the final ledger status is FAILED while the process exit
code is 0, contradicting the claim that the exit code is non-zero for a
FAILED run. -/
theorem exitCodeZeroOnFailedRun :
    (main_run cfgAllFail dbEmpty).exitCode = 0 ∧
    check_run_status (main_run cfgAllFail dbEmpty).db.runs "run1" = some "FAILED" :=
  ⟨by decide, by decide⟩

/-- C1, amended: for every invocation that runs the transfer loop to
completion the process exit code is 0, whether the final ledger status
is SUCCESS or FAILED; the ledger status is the only outcome signal. -/
theorem exitCodeAlwaysZero (cfg : Config) (db0 : DBState) :
    (main_run cfg db0).exitCode = 0 := by
  unfold main_run
  split
  · rfl
  · split
    · rfl
    · rfl

/-- C2, counterexample: with max_retry = 2 and every attempt failing,
the trace holds exactly 2 sync-tool executions, not the 4 a fast-plus-
verify pair per attempt would produce; final status is FAILED. -/
theorem twoAttemptsTwoToolCalls :
    countRsync (main_run cfgAllFail2 dbEmpty).trace = 2 ∧
    countRsync (main_run cfgAllFail2 dbEmpty).trace ≠ 2 * 2 ∧
    check_run_status (main_run cfgAllFail2 dbEmpty).db.runs "run1" = some "FAILED" :=
  ⟨by decide, by decide, by decide⟩

/-- C2, amended: for max_retry = N, if every attempt fails
classification, the sync tool is executed exactly N times, a single
invocation per attempt rather than a fast-plus-verify pair, and the
final ledger status is FAILED. -/
theorem boundedRetriesSingleInvocation (cfg : Config) (db0 : DBState)
    (h1 : check_run_status db0.runs (runIdOf cfg) ≠ some "SUCCESS")
    (h2 : check_run_status db0.runs (runIdOf cfg) ≠ some "PROCESSING")
    (hfail : ∀ j, run_rsync_ok (cfg.attemptOutcome j) = false) :
    countRsync (main_run cfg db0).trace = cfg.max_retry ∧
    check_run_status (main_run cfg db0).db.runs (runIdOf cfg) = some "FAILED" := by
  rw [main_run_proceed cfg db0 h1 h2]
  obtain ⟨hs, hf, hc⟩ :=
    attemptLoop_allfail cfg (runIdOf cfg) (targetOf cfg) hfail cfg.max_retry 1 db0.files
  constructor
  · rw [countRsync_main_proceed]
    exact hc
  · show check_run_status (runsFinal cfg db0 _) (runIdOf cfg) = some "FAILED"
    rw [check_runsFinal cfg db0 _ rfl]
    unfold finalStatusOf
    rw [show (loopOf cfg db0).success = false from hs]
    rfl

theorem boundedRetriesSingleInvocationWitness :
    countRsync (main_run cfgAllFail dbEmpty).trace = cfgAllFail.max_retry ∧
    check_run_status (main_run cfgAllFail dbEmpty).db.runs (runIdOf cfgAllFail) =
      some "FAILED" :=
  boundedRetriesSingleInvocation cfgAllFail dbEmpty (by decide) (by decide)
    (fun _ => rfl)

/-- C3, counterexample: an rsync outcome with exit code 0 whose captured
output contains the marker "error" (here in upper case, matched
case-insensitively) is classified as a successful attempt, contradicting
the claim that the output must be free of failure markers; there is also
only a single invocation per attempt, not a mode pair. -/
theorem markerOutputClassifiedSuccess :
    run_rsync_ok ⟨0, "rsync ERROR: connection reset"⟩ = true ∧
    specHasFailureMarker "rsync ERROR: connection reset" = true :=
  ⟨by decide, by decide⟩

/-- C3, amended: a sync attempt is classified successful exactly when
the single rsync invocation exits with code 0; the captured output is
never inspected, so classification is independent of it. -/
theorem classificationIgnoresOutput :
    (∀ o : RsyncOutcome, (run_rsync_ok o = true ↔ o.exitCode = 0)) ∧
    (∀ o o2 : RsyncOutcome, o.exitCode = o2.exitCode →
      run_rsync_ok o = run_rsync_ok o2) := by
  constructor
  · intro o
    simp [run_rsync_ok]
  · intro o o2 h
    simp [run_rsync_ok, h]

theorem classificationIgnoresOutputWitness :
    run_rsync_ok ⟨0, "clean"⟩ = run_rsync_ok ⟨0, "rsync error: partial transfer"⟩ :=
  classificationIgnoresOutput.2 ⟨0, "clean"⟩ ⟨0, "rsync error: partial transfer"⟩ rfl

/-- C4, counterexample: for a run whose ledger status reads SUCCESS the
invocation still creates and writes a fresh timestamped log file, a
filesystem mutation, contradicting the claim of zero filesystem
mutations. -/
theorem successSkipStillWritesLog :
    check_run_status dbSuccess.runs (runIdOf cfgAllFail) = some "SUCCESS" ∧
    (main_run cfgAllFail dbSuccess).trace.any eventMutatesFS = true :=
  ⟨by decide, by decide⟩

/-- C4, amended: for a run whose ledger status reads SUCCESS the
invocation performs zero destination-directory mutations, zero sync
invocations and zero database changes, and exits with code 0; it does,
however, create and append to a fresh log file in the local event-logs
area. -/
theorem successSkipNoDestNoSync (cfg : Config) (db0 : DBState)
    (h : check_run_status db0.runs (runIdOf cfg) = some "SUCCESS") :
    (main_run cfg db0).db = db0 ∧ (main_run cfg db0).exitCode = 0 ∧
    (main_run cfg db0).trace.all (fun e => !(eventMutatesDest e)) = true ∧
    (main_run cfg db0).trace.all (fun e => !(eventIsSync e)) = true := by
  have hbr : main_run cfg db0 = ⟨0, db0, preTrace (runIdOf cfg) ++ [.logWrite]⟩ := by
    unfold main_run
    rw [if_pos h]
  rw [hbr]
  refine ⟨rfl, rfl, ?_, ?_⟩ <;> simp [preTrace, eventMutatesDest, eventIsSync]

theorem successSkipNoDestNoSyncWitness :
    (main_run cfgAllFail dbSuccess).db = dbSuccess ∧
    (main_run cfgAllFail dbSuccess).exitCode = 0 ∧
    (main_run cfgAllFail dbSuccess).trace.all (fun e => !(eventMutatesDest e)) = true ∧
    (main_run cfgAllFail dbSuccess).trace.all (fun e => !(eventIsSync e)) = true :=
  successSkipNoDestNoSync cfgAllFail dbSuccess (by decide)

/-- C5, confirmed: for a run whose ledger status reads PROCESSING a
second invocation performs zero sync invocations and leaves the entire
database, in particular the stored status and every other ledger field
of that run, unchanged; it exits with code 0. -/
theorem processingGuardNoChanges (cfg : Config) (db0 : DBState)
    (h : check_run_status db0.runs (runIdOf cfg) = some "PROCESSING") :
    (main_run cfg db0).db = db0 ∧
    (main_run cfg db0).trace.all (fun e => !(eventIsSync e)) = true ∧
    (main_run cfg db0).exitCode = 0 := by
  have hne : check_run_status db0.runs (runIdOf cfg) ≠ some "SUCCESS" := by
    rw [h]
    simp
  have hbr : main_run cfg db0 = ⟨0, db0, preTrace (runIdOf cfg) ++ [.logWrite]⟩ := by
    unfold main_run
    rw [if_neg hne, if_pos h]
  rw [hbr]
  refine ⟨rfl, ?_, rfl⟩
  simp [preTrace, eventIsSync]

theorem processingGuardNoChangesWitness :
    (main_run cfgAllFail dbProcessing).db = dbProcessing ∧
    (main_run cfgAllFail dbProcessing).trace.all (fun e => !(eventIsSync e)) = true ∧
    (main_run cfgAllFail dbProcessing).exitCode = 0 :=
  processingGuardNoChanges cfgAllFail dbProcessing (by decide)

/-- C7, counterexample: in a local run on a fresh ledger the creation of
the destination directory appears in the trace strictly before the
ledger write that records PROCESSING, contradicting the claim that no
destination-directory creation precedes that write. -/
theorem destMkdirBeforeProcessingWrite :
    Event.destMkdir "/dst/run1" ∈ (main_run cfgAllFail dbEmpty).trace ∧
    Event.ledgerWrite "run1" "PROCESSING" ∈ (main_run cfgAllFail dbEmpty).trace ∧
    (main_run cfgAllFail dbEmpty).trace.indexOf (Event.destMkdir "/dst/run1") <
      (main_run cfgAllFail dbEmpty).trace.indexOf (Event.ledgerWrite "run1" "PROCESSING") :=
  ⟨by decide, by decide, by decide⟩

/-- C7, amended: in every run that proceeds past the status guard, the
ledger write recording PROCESSING is present in the trace and no
sync-tool execution occurs before it; so the write precedes every write
of transferred data, though for local targets the creation of the
destination directory itself precedes the write. -/
theorem processingWriteBeforeSync (cfg : Config) (db0 : DBState)
    (h1 : check_run_status db0.runs (runIdOf cfg) ≠ some "SUCCESS")
    (h2 : check_run_status db0.runs (runIdOf cfg) ≠ some "PROCESSING") :
    Event.ledgerWrite (runIdOf cfg) "PROCESSING" ∈ (main_run cfg db0).trace ∧
    syncBeforeWrite (runIdOf cfg) (main_run cfg db0).trace = false := by
  rw [main_run_proceed cfg db0 h1 h2]
  have hpre : ∀ e ∈ preTrace (runIdOf cfg) ++ [Event.logWrite] ++ mkdirEvsOf cfg,
      eventIsSync e = false ∧ e ≠ Event.ledgerWrite (runIdOf cfg) "PROCESSING" := by
    intro e he
    rcases List.mem_append.1 he with he1 | he4
    · rcases List.mem_append.1 he1 with he3 | he5
      · simp only [preTrace, List.mem_cons, List.not_mem_nil, or_false] at he3
        rcases he3 with rfl | rfl | rfl | rfl | rfl | rfl <;> exact ⟨rfl, by simp⟩
      · simp only [List.mem_singleton] at he5
        subst he5
        exact ⟨rfl, by simp⟩
    · unfold mkdirEvsOf at he4
      split at he4
      · cases he4
      · simp only [List.mem_singleton] at he4
        subst he4
        exact ⟨rfl, by simp⟩
  constructor
  · show Event.ledgerWrite (runIdOf cfg) "PROCESSING" ∈
      preTrace (runIdOf cfg) ++ [Event.logWrite] ++ mkdirEvsOf cfg ++
        [Event.ledgerWrite (runIdOf cfg) "PROCESSING"] ++ postTrace cfg db0
    simp
  · show syncBeforeWrite (runIdOf cfg)
      (preTrace (runIdOf cfg) ++ [Event.logWrite] ++ mkdirEvsOf cfg ++
        [Event.ledgerWrite (runIdOf cfg) "PROCESSING"] ++ postTrace cfg db0) = false
    have hlist : preTrace (runIdOf cfg) ++ [Event.logWrite] ++ mkdirEvsOf cfg ++
        [Event.ledgerWrite (runIdOf cfg) "PROCESSING"] ++ postTrace cfg db0 =
        (preTrace (runIdOf cfg) ++ [Event.logWrite] ++ mkdirEvsOf cfg) ++
          (Event.ledgerWrite (runIdOf cfg) "PROCESSING" :: postTrace cfg db0) := by
      simp [List.append_assoc]
    rw [hlist, syncBeforeWrite_append _ _ _ hpre]
    simp [syncBeforeWrite]

theorem processingWriteBeforeSyncWitness :
    Event.ledgerWrite (runIdOf cfgAllFail) "PROCESSING" ∈
      (main_run cfgAllFail dbEmpty).trace ∧
    syncBeforeWrite (runIdOf cfgAllFail) (main_run cfgAllFail dbEmpty).trace = false :=
  processingWriteBeforeSync cfgAllFail dbEmpty (by decide) (by decide)

/-- C8, counterexample: update_run_status on an empty ledger, where no
record for the run exists, completes normally and returns the ledger
unchanged instead of failing. -/
theorem updateStatusMissingRunNoop :
    update_run_status [] "run1" "SUCCESS" = [] := rfl

/-- C8, amended: update_run_status on a run_id with no matching record
is a silent no-op: it completes without signalling any error and leaves
the ledger unchanged. -/
theorem updateStatusMissingRunSilent (db : List RunRow) (id st : String)
    (h : ∀ r ∈ db, r.run_ID ≠ id) :
    update_run_status db id st = db := by
  induction db with
  | nil => rfl
  | cons r rs ih =>
    unfold update_run_status
    simp only [List.map_cons]
    rw [if_neg (by simpa using h r (List.mem_cons_self r rs))]
    have := ih (fun x hx => h x (List.mem_cons_of_mem _ hx))
    unfold update_run_status at this
    rw [this]

theorem updateStatusMissingRunSilentWitness :
    update_run_status [rowSuccess] "runX" "SUCCESS" = [rowSuccess] :=
  updateStatusMissingRunSilent [rowSuccess] "runX" "SUCCESS" (by decide)

/-- C6, counterexample: rsync reports exit code 0 while the source file
with relative path b/x is absent from the destination, yet the attempt
is classified as overall success: the loop breaks after a single attempt
and the final ledger status is SUCCESS, because reconciliation compares
base names only and a/x shadows b/x. -/
theorem baseNameShadowingAcceptedIncomplete :
    run_rsync_ok (cfgShadow.attemptOutcome 1) = true ∧
    (⟨["b"], "x"⟩ : RelPath) ∈ cfgShadow.sourceFiles ∧
    ¬(⟨["b"], "x"⟩ : RelPath) ∈ cfgShadow.destListing 1 ∧
    check_run_status (main_run cfgShadow dbEmpty).db.runs "run1" = some "SUCCESS" ∧
    countRsync (main_run cfgShadow dbEmpty).trace = 1 :=
  ⟨by decide, by decide, by decide, by decide, by decide⟩

/-- C6, amended: if the sync tool reports exit code 0 but after the
verifier pass at least one source base name still has no FileRecord for
the run, the attempt is not classified as overall success: the loop
proceeds to the next attempt instead of breaking, and an exhausted
attempt budget yields a failed loop (which main records as FAILED). -/
theorem verifierGatingRetries (cfg : Config) (rid tgt : String) (rem i : Nat)
    (frs : List FileRec)
    (hok : run_rsync_ok (cfg.attemptOutcome i) = true)
    (hmiss : (check_files_transferred
        (populate_file_records frs rid tgt (cfg.destListing i) cfg.sourceFiles)
        rid cfg.sourceFiles).1 = false) :
    (attemptLoop cfg rid tgt (rem + 1) i frs).success =
      (attemptLoop cfg rid tgt rem (i + 1)
        (populate_file_records frs rid tgt (cfg.destListing i) cfg.sourceFiles)).success ∧
    (attemptLoop cfg rid tgt 0 i frs).success = false := by
  constructor
  · simp [attemptLoop, hok, hmiss]
  · rfl

theorem verifierGatingRetriesWitness :
    (attemptLoop cfgMissing "run1" "/dst/run1" 1 1 []).success =
      (attemptLoop cfgMissing "run1" "/dst/run1" 0 2
        (populate_file_records [] "run1" "/dst/run1" (cfgMissing.destListing 1)
          cfgMissing.sourceFiles)).success ∧
    (attemptLoop cfgMissing "run1" "/dst/run1" 0 1 []).success = false :=
  verifierGatingRetries cfgMissing "run1" "/dst/run1" 0 1 [] (by decide) (by decide)

theorem hasRecord_false_forall (frs : List FileRec) (id n : String)
    (h : hasRecord frs id n = false) :
    ∀ r ∈ frs, ¬(r.run_ID = id ∧ r.file_name = n) := by
  intro r hr
  simp only [hasRecord, List.any_eq_false, Bool.and_eq_true, beq_iff_eq, not_and] at h
  intro hc
  exact h r hr hc.1 hc.2

theorem nodup_append_single (acc : List FileRec) (r : FileRec)
    (h : hasRecord acc r.run_ID r.file_name = false) (hd : NoDupP acc) :
    NoDupP (acc ++ [r]) := by
  rw [NoDupP, List.pairwise_append]
  refine ⟨hd, by simp, ?_⟩
  intro a ha b hb
  rw [List.mem_singleton] at hb
  rw [hb]
  exact hasRecord_false_forall acc r.run_ID r.file_name h a ha

theorem populateAux_nodup (rid tgt : String) (srcNames : List String) :
    ∀ ds acc, NoDupP acc → NoDupP (populateAux rid tgt srcNames ds acc) := by
  intro ds
  induction ds with
  | nil => intro acc h; exact h
  | cons p ps ih =>
    intro acc h
    unfold populateAux
    split
    · rename_i hcond
      simp only [Bool.and_eq_true] at hcond
      apply ih
      apply nodup_append_single
      · simpa using hcond.2
      · exact h
    · exact ih acc h

theorem populateAux_mem (rid tgt : String) (srcNames : List String) :
    ∀ ds acc r, r ∈ populateAux rid tgt srcNames ds acc →
      r ∈ acc ∨ srcNames.contains r.file_name = true := by
  intro ds
  induction ds with
  | nil => intro acc r h; exact Or.inl h
  | cons p ps ih =>
    intro acc r h
    unfold populateAux at h
    split at h
    · rename_i hcond
      simp only [Bool.and_eq_true] at hcond
      rcases ih _ r h with hmem | hsrc
      · rcases List.mem_append.1 hmem with hin | hnew
        · exact Or.inl hin
        · rw [List.mem_singleton] at hnew
          rw [hnew]
          exact Or.inr (by simpa using hcond.1)
      · exact Or.inr hsrc
    · exact ih _ r h

/-- C9, confirmed: starting from a file_record table without duplicate
(run_ID, file_name) pairs, any sequence of verifier recording passes
preserves that uniqueness, and every record the passes add carries a
file name that appears among the base names enumerated from that pass's
source directory. -/
theorem fileRecordInvariant (frs : List FileRec) (passes : List VerifierPass)
    (h : NoDupP frs) :
    NoDupP (applyPasses frs passes) ∧
    ∀ r ∈ applyPasses frs passes,
      r ∈ frs ∨ ∃ p ∈ passes,
        ((p.sourceFiles.map (fun q => q.base)).contains r.file_name = true) := by
  induction passes generalizing frs with
  | nil => exact ⟨h, fun r hr => Or.inl hr⟩
  | cons p ps ih =>
    have h1 : NoDupP (populate_file_records frs p.run_id p.target_dir
        p.destFiles p.sourceFiles) :=
      populateAux_nodup p.run_id p.target_dir _ p.destFiles frs h
    obtain ⟨ha, hb⟩ := ih _ h1
    simp only [applyPasses]
    refine ⟨ha, ?_⟩
    intro r hr
    rcases hb r hr with hmem | ⟨q, hq, hcont⟩
    · rcases populateAux_mem p.run_id p.target_dir _ p.destFiles frs r hmem with hin | hc
      · exact Or.inl hin
      · exact Or.inr ⟨p, List.mem_cons_self _ _, hc⟩
    · exact Or.inr ⟨q, List.mem_cons_of_mem _ hq, hcont⟩

theorem fileRecordInvariantWitness :
    NoDupP (applyPasses [] [passW]) ∧
    ∀ r ∈ applyPasses [] [passW],
      r ∈ ([] : List FileRec) ∨ ∃ p ∈ [passW],
        ((p.sourceFiles.map (fun q => q.base)).contains r.file_name = true) :=
  fileRecordInvariant [] [passW] List.Pairwise.nil

theorem hasRecord_contains_dbfiles (frs : List FileRec) (rid n : String)
    (h : hasRecord frs rid n = true) :
    ((frs.filter (fun r => r.run_ID == rid)).map (fun r => r.file_name)).contains n
      = true := by
  simp only [hasRecord, List.any_eq_true, Bool.and_eq_true, beq_iff_eq] at h
  obtain ⟨r, hr, h1, h2⟩ := h
  simp only [List.contains, List.elem_eq_mem, decide_eq_true_eq, List.mem_map,
    List.mem_filter]
  exact ⟨r, ⟨hr, by simp [h1]⟩, h2⟩

/-- C10, confirmed: reconciliation compares base names only.  For a
source tree with two distinct files sharing one base name, a single
FileRecord with that base name for the run makes check_files_transferred
report the transfer complete; the second file and the directory
structure are never checked. -/
theorem reconcileByBaseNameOnly (frs : List FileRec) (rid : String) (p1 p2 : RelPath)
    (_hne : p1 ≠ p2) (hbase : p1.base = p2.base)
    (hrec : hasRecord frs rid p1.base = true) :
    (check_files_transferred frs rid [p1, p2]).1 = true := by
  have hc := hasRecord_contains_dbfiles frs rid p1.base hrec
  simp only [check_files_transferred, List.map_cons, List.map_nil, List.filter_cons,
    List.filter_nil, ← hbase, hc]
  simp

theorem reconcileByBaseNameOnlyWitness :
    (check_files_transferred [⟨"run1", "x", "/dst/run1/a/x"⟩] "run1"
      [⟨["a"], "x"⟩, ⟨["b"], "x"⟩]).1 = true :=
  reconcileByBaseNameOnly [⟨"run1", "x", "/dst/run1/a/x"⟩] "run1" ⟨["a"], "x"⟩
    ⟨["b"], "x"⟩ (by decide) rfl (by decide)
